import Mathlib

/-!
Verification of the tool bodies of `src/tool_use/src/tools.py` and of the
spec-described tool registry, via a shallow embedding in Lean 4.

Python values that flow through the tools (JSON payloads, keyword
arguments) are modelled by `JVal`.  Python code that can raise is embedded
in `Except String α`, the error message standing for `str(e)`.  The HTTP
libraries (`urllib.request`, `requests`) and `yfinance` are external
collaborators; each tool takes the behaviour of its upstream call as an
oracle argument, and additionally reports the list of HTTP requests it
issued (with the timeout each request carried) so that deadline and
"no request made" properties can be stated.
-/

/-- A Python/JSON value as handled by the tool bodies. -/
inductive JVal where
  | null
  | str (s : String)
  | num (q : ℚ)
  | jbool (b : Bool)
  | arr (xs : List JVal)
  | obj (kvs : List (String × JVal))

namespace JVal

/-- First-match lookup in the key/value list of an object (Python dict lookup). -/
def jLookup (kvs : List (String × JVal)) (k : String) : Option JVal :=
  match kvs with
  | [] => none
  | (k', v) :: rest => if k' = k then some v else jLookup rest k

/-- Python truthiness (`bool(v)`). -/
def truthy : JVal → Bool
  | .null => false
  | .str s => ¬ s.isEmpty
  | .num q => q ≠ 0
  | .jbool b => b
  | .arr xs => ¬ xs.isEmpty
  | .obj kvs => ¬ kvs.isEmpty

/-- Python `k in v` (membership test); raises TypeError on non-containers. -/
def pyIn (k : String) : JVal → Except String Bool
  | .obj kvs => .ok ((jLookup kvs k).isSome)
  | .arr xs => .ok (xs.any (fun x => match x with | .str s => s = k | _ => false))
  | .str s => .ok ((s.splitOn k).length > 1)
  | _ => .error "TypeError: argument is not iterable"

/-- Python `v[k]` subscription; KeyError when the key is missing,
TypeError on non-dicts. -/
def jIndex (v : JVal) (k : String) : Except String JVal :=
  match v with
  | .obj kvs =>
      match jLookup kvs k with
      | some x => .ok x
      | none => .error ("KeyError: " ++ k)
  | _ => .error "TypeError: object is not subscriptable"

/-- Python `v.get(k)` with default `None`; AttributeError on non-dicts. -/
def dictGet (v : JVal) (k : String) : Except String JVal :=
  match v with
  | .obj kvs =>
      match jLookup kvs k with
      | some x => .ok x
      | none => .ok .null
  | _ => .error "AttributeError: object has no attribute get"

/-- Python `v.get(k, d)` with an explicit default; AttributeError on
non-dicts. -/
def dictGetD (v : JVal) (k : String) (d : JVal) : Except String JVal :=
  match v with
  | .obj kvs =>
      match jLookup kvs k with
      | some x => .ok x
      | none => .ok d
  | _ => .error "AttributeError: object has no attribute get"

/-- Python `v is None`. -/
def isNone : JVal → Bool
  | .null => true
  | _ => false

/-- Coerce a value to a number for arithmetic (`amount * rate`);
raises TypeError when no numeric interpretation exists. -/
def asNum : JVal → Except String ℚ
  | .num q => .ok q
  | .jbool b => .ok (if b then 1 else 0)
  | _ => .error "TypeError: unsupported operand type"

end JVal

/-- Models Python `s.upper()` for the ASCII currency codes this program
handles: uppercases every character. -/
def pyUpper (s : String) : String :=
  String.mk (s.data.map Char.toUpper)

/-- Left-pad a decimal string with zeros to width `w`. -/
def padLeftZeros (w : ℕ) (s : String) : String :=
  if s.length ≥ w then s else String.mk (List.replicate (w - s.length) '0') ++ s

/-- Models Python `f"{x:.2f}"`: fixed-point rendering with two decimals. -/
def format2 (q : ℚ) : String :=
  let n : ℤ := ⌊q * 100 + 1 / 2⌋
  let sign := if n < 0 then "-" else ""
  sign ++ toString (n.natAbs / 100) ++ "." ++ padLeftZeros 2 (toString (n.natAbs % 100))

/-- Models Python `str()` of a float for decimally representable values:
integral values render with a trailing `.0`, fractional values with up to
six significant decimals, trailing zeros stripped. -/
def formatAmt (q : ℚ) : String :=
  let sign := if q < 0 then "-" else ""
  let a := |q|
  let ip : ℕ := a.floor.natAbs
  let fracRaw : ℕ := ((a - a.floor) * 10 ^ 6).floor.natAbs
  if fracRaw = 0 then sign ++ toString ip ++ ".0"
  else
    let fs := (padLeftZeros 6 (toString fracRaw)).dropRightWhile (· == '0')
    sign ++ toString ip ++ "." ++ fs

/-- Python `str(v)` as used by f-string interpolation of tool arguments. -/
def pyStr : JVal → String
  | .null => "None"
  | .str s => s
  | .num q => formatAmt q
  | .jbool b => if b then "True" else "False"
  | .arr _ => "[...]"
  | .obj _ => "{...}"

/-- One outgoing HTTP request, with the deadline the client call carried
(`none` when the call supplied no timeout argument). -/
structure HttpRequest where
  url : String
  timeoutSecs : Option ℕ
  payload : Option JVal := none

/-- Result of running one tool body: the value it produced (`Except`
models whether an exception escaped the Python function) and the HTTP
requests it issued. -/
structure ToolRun (α : Type) where
  result : Except String α
  requests : List HttpRequest

open JVal

/-! ## Module initialisation (tools.py line 12)

`TAVILY_API_KEY = os.getenv("TAVILY_API_KEY")`: the environment is a map
from variable names to optional values; `os.getenv` returns `None` for an
absent variable and never raises, so module startup succeeds for every
environment. -/

/-- Python `os.getenv(name)`: total lookup, `none` models Python `None`. -/
def os_getenv (env : String → Option String) (name : String) : Option String :=
  env name

/-- The module-level statement `TAVILY_API_KEY = os.getenv("TAVILY_API_KEY")`,
embedded in `Except` to record that it can raise no exception. -/
def module_init (env : String → Option String) : Except String (Option String) :=
  Except.ok (os_getenv env "TAVILY_API_KEY")

/-! ## convert_currency (tools.py lines 13-38)

The oracle `fetch` stands for `urllib.request.urlopen(url)` followed by
`json.loads(response.read())`: `.ok data` is a successful fetch and parse,
`.error e` is any exception raised there (network failure, timeout,
malformed JSON).  Note the `urlopen` call passes no timeout argument. -/

/-- The URL `convert_currency` fetches. -/
def convert_currency_url (from_currency : String) : String :=
  "https://open.er-api.com/v6/latest/" ++ pyUpper from_currency

/-- Body of `convert_currency` as written in the source; the surrounding
`try/except` is applied by `convert_currency` below. -/
def convert_currency_try (amount : ℚ) (from_currency to_currency : String)
    (fetch : Except String JVal) : Except String String := do
  let data ← fetch
  let hasRates ← pyIn "rates" data
  if ¬ hasRates then
    pure "Error: Could not fetch exchange rates"
  else do
    let ratesV ← jIndex data "rates"
    let rateV ← dictGet ratesV (pyUpper to_currency)
    if ¬ truthy rateV then
      pure ("Error: No rate found for " ++ to_currency)
    else do
      let r ← asNum rateV
      let converted := amount * r
      pure (formatAmt amount ++ " " ++ pyUpper from_currency ++ " = " ++
        format2 converted ++ " " ++ pyUpper to_currency)

/-- The tool `convert_currency(amount, from_currency, to_currency)`. -/
def convert_currency (amount : ℚ) (from_currency to_currency : String)
    (fetch : Except String JVal) : ToolRun String :=
  let reqs := [{ url := convert_currency_url from_currency, timeoutSecs := none }]
  match convert_currency_try amount from_currency to_currency fetch with
  | .ok s => { result := .ok s, requests := reqs }
  | .error e => { result := .ok ("Error converting currency: " ++ e), requests := reqs }

/-! ## get_weather (tools.py lines 41-57)

`city` is a `JVal` (`null` models the default `None`); `kwargs` is the
keyword-argument dict.  The oracle `http` stands for
`requests.get(url, timeout=5)` + `raise_for_status()` + `.text`:
`.ok text` is a 2xx response body, `.error e` any raised exception
(network failure, timeout, non-2xx status). -/

/-- Python `kwargs.get(k)`: `None` when the key is absent. -/
def kwGet (kwargs : List (String × JVal)) (k : String) : JVal :=
  match jLookup kwargs k with
  | some v => v
  | none => .null

/-- The URL `get_weather` fetches for a resolved city value. -/
def get_weather_url (city : JVal) : String :=
  "http://wttr.in/" ++ pyStr city ++ "?format=3"

/-- The tool `get_weather(city=None, **kwargs)`. -/
def get_weather (city : JVal) (kwargs : List (String × JVal))
    (http : String → Except String String) : ToolRun String :=
  let city := if isNone city then kwGet kwargs "location" else city
  if ¬ truthy city then
    { result := .ok "Error: No city provided.", requests := [] }
  else
    let url := get_weather_url city
    let reqs := [{ url := url, timeoutSecs := some 5 }]
    match http url with
    | .ok text => { result := .ok text.trim, requests := reqs }
    | .error e =>
        { result := .ok ("Error retrieving weather for " ++ pyStr city ++ ": " ++ e),
          requests := reqs }

/-! ## web_search (tools.py lines 62-91)

The oracle `http` stands for `requests.post(url, json=payload, timeout=10)`
+ `raise_for_status()` + `.json()`: `.ok data` is a parsed 2xx JSON body,
`.error e` any exception raised there (network failure, timeout, non-2xx
status, malformed JSON).  The payload carries the module-level
`TAVILY_API_KEY` (null when the variable is unset). -/

/-- The JSON payload `web_search` posts. -/
def web_search_payload (tavily_api_key : Option String) (query : String) : JVal :=
  .obj [("api_key", match tavily_api_key with | some k => .str k | none => .null),
        ("query", .str query),
        ("search_depth", .str "advanced"),
        ("include_images", .jbool true),
        ("include_raw_content", .jbool true),
        ("max_results", .num 4)]

/-- One pass of the result-formatting loop body
(`f"Result {i}: {title}\n{snippet}\n\n"` for the i-th result). -/
def web_search_format_one (i : ℕ) (result : JVal) : Except String String := do
  let title ← dictGetD result "title" (.str "No Title")
  let snippet ← dictGetD result "snippet" (.str "No snippet available")
  pure ("Result " ++ toString i ++ ": " ++ pyStr title ++ "\n" ++ pyStr snippet ++ "\n\n")

/-- The `for i, result in enumerate(results, 1)` accumulation loop. -/
def web_search_format (i : ℕ) (results : List JVal) : Except String String :=
  match results with
  | [] => .ok ""
  | r :: rest => do
      let line ← web_search_format_one i r
      let tail ← web_search_format (i + 1) rest
      pure (line ++ tail)

/-- Body of the `try` block of `web_search`; the posted payload (and with it
the api key and query) only influences the upstream response, i.e. the
oracle `http`. -/
def web_search_try (http : Except String JVal) : Except String String := do
  let response_j ← http
  let resultsV ← dictGetD response_j "results" (.arr [])
  if ¬ truthy resultsV then
    pure "No results found."
  else
    match resultsV with
    | .arr results => do
        let formatted ← web_search_format 1 results
        pure formatted.trim
    | other => do
        let _ ← web_search_format_one 1 other
        .error "TypeError: object is not iterable"

/-- The tool `web_search(query)`. -/
def web_search (tavily_api_key : Option String) (query : String)
    (http : Except String JVal) : ToolRun String :=
  let reqs := [{ url := "https://api.tavily.com/search", timeoutSecs := some 10,
                 payload := some (web_search_payload tavily_api_key query) }]
  match web_search_try http with
  | .ok s => { result := .ok s, requests := reqs }
  | .error e => { result := .ok ("Error during web search: " ++ e), requests := reqs }

/-! ## get_ticker (tools.py lines 95-112)

The oracle `http` stands for
`requests.get(url, timeout=10, headers=...)` + `raise_for_status()` +
`.json()`: `.ok data` is a parsed 2xx JSON body, `.error e` any exception
raised there.  On any exception the function returns `None`. -/

/-- The Yahoo Finance search URL `get_ticker` fetches. -/
def get_ticker_url (company : String) : String :=
  "https://query2.finance.yahoo.com/v1/finance/search?q=" ++ company

/-- Body of the `try` block of `get_ticker`. -/
def get_ticker_try (http : Except String JVal) : Except String JVal := do
  let data ← http
  let quotes ← dictGetD data "quotes" (.arr [])
  if truthy quotes then
    match quotes with
    | .arr (q :: _) => dictGet q "symbol"
    | .arr [] => .error "IndexError: list index out of range"
    | other => jIndex other "0"
  else
    pure .null

/-- The helper `get_ticker(company)`: the result is the `"symbol"` field of the
first quote, or `None` (`JVal.null`). -/
def get_ticker (company : String) (http : Except String JVal) : ToolRun JVal :=
  let reqs := [{ url := get_ticker_url company, timeoutSecs := some 10 }]
  match get_ticker_try http with
  | .ok v => { result := .ok v, requests := reqs }
  | .error _ => { result := .ok JVal.null, requests := reqs }

/-! ## get_stock_price (tools.py lines 114-131)

The oracle `hist` stands for the Close column of `yf.Ticker(sym).history(period="1d")`
for a given ticker symbol: `.ok closes` is the (possibly empty) column of
closing prices, `.error e` any exception raised by the `yfinance` calls.
`historyFetches` records for which ticker symbols a price history was
actually requested. -/

/-- Result of `get_stock_price`: produced string, HTTP requests issued
(via `get_ticker`), and the ticker symbols whose price history was
fetched through `yfinance`. -/
structure StockRun where
  result : Except String String
  requests : List HttpRequest
  historyFetches : List String

/-- The tool `get_stock_price(company)`. -/
def get_stock_price (company : String) (searchHttp : Except String JVal)
    (hist : String → Except String (List ℚ)) : StockRun :=
  let tick := get_ticker company searchHttp
  match tick.result with
  | .error e => { result := .error e, requests := tick.requests, historyFetches := [] }
  | .ok ticker_symbol =>
    if ¬ truthy ticker_symbol then
      { result := .ok ("Could not find a ticker symbol for " ++ company ++ "."),
        requests := tick.requests, historyFetches := [] }
    else
      let sym := pyStr ticker_symbol
      match hist sym with
      | .error e =>
          { result := .ok ("Error retrieving stock price for " ++ company ++ ": " ++ e),
            requests := tick.requests, historyFetches := [sym] }
      | .ok closes =>
          if closes.isEmpty then
            { result := .ok ("Could not retrieve data for " ++ company ++ "."),
              requests := tick.requests, historyFetches := [sym] }
          else
            let price := closes.getLastD 0
            { result := .ok ("The current stock price of " ++ company ++ " (" ++ sym ++
                ") is $" ++ format2 price),
              requests := tick.requests, historyFetches := [sym] }

/-! ## Tool registry

Modelled from the spec: the `tool_registry` module (providing the `@tool()`
decorator, the ToolDescriptor and the registry) is not among the provided
source files; its behaviour is taken from the words of the spec: a descriptor
carries name, description and parameters; the registry maps names to
descriptors; `register` fails with a DuplicateToolError (a
ConfigurationError) when the name already exists and in that case leaves
the registry unchanged. -/

/-- Modelled from the spec: immutable tool metadata plus identifier. -/
structure ToolDescriptor where
  name : String
  description : String
  parameters : List (String × String × Bool)

/-- Modelled from the spec: the registry is the ordered list of registered
descriptors (`entries`), registration order preserved. -/
abbrev ToolRegistry := List ToolDescriptor

/-- Modelled from the spec: `register(descriptor)` adds the descriptor, or
fails with a DuplicateToolError when the name already exists; the
returned registry is the state after the call (unchanged on failure, as a
raised configuration error aborts the insertion). -/
def registerTool (reg : ToolRegistry) (d : ToolDescriptor) :
    ToolRegistry × Option String :=
  if reg.any (fun e => e.name = d.name) then
    (reg, some ("DuplicateToolError: " ++ d.name))
  else
    (reg ++ [d], none)

/-! ## Theorems -/

@[simp] theorem exceptBind_ok {α β : Type} (a : α) (f : α → Except String β) :
    (Except.ok a : Except String α) >>= f = f a := rfl

@[simp] theorem exceptBind_error {α β : Type} (e : String) (f : α → Except String β) :
    (Except.error e : Except String α) >>= f = Except.error e := rfl

@[simp] theorem string_empty_isEmpty : "".isEmpty = true := rfl

/-- The helper `get_ticker` swallows every exception of its `try` block. -/
theorem get_ticker_result_ok (company : String) (http : Except String JVal) :
    ∃ v, (get_ticker company http).result = Except.ok v := by
  unfold get_ticker
  cases h : get_ticker_try http <;> simp [h]

/-- C1: every registered tool body (convert_currency, get_weather,
web_search, get_stock_price), for any arguments of the declared types and
any behaviour of the external services (success, malformed response, or
raised exception), returns a value of string type and never lets an
exception propagate past the boundary of the tool (`result` is always
`Except.ok`). -/
theorem tool_bodies_return_strings :
    (∀ (amount : ℚ) (from_currency to_currency : String) (fetch : Except String JVal),
       ∃ s, (convert_currency amount from_currency to_currency fetch).result = Except.ok s) ∧
    (∀ (city : JVal) (kwargs : List (String × JVal)) (http : String → Except String String),
       ∃ s, (get_weather city kwargs http).result = Except.ok s) ∧
    (∀ (tavily_api_key : Option String) (query : String) (http : Except String JVal),
       ∃ s, (web_search tavily_api_key query http).result = Except.ok s) ∧
    (∀ (company : String) (searchHttp : Except String JVal)
       (hist : String → Except String (List ℚ)),
       ∃ s, (get_stock_price company searchHttp hist).result = Except.ok s) := by
  refine ⟨?_, ?_, ?_, ?_⟩
  · intro amount from_currency to_currency fetch
    unfold convert_currency
    cases h : convert_currency_try amount from_currency to_currency fetch <;> simp [h]
  · intro city kwargs http
    unfold get_weather
    dsimp only
    repeat' split
    all_goals exact ⟨_, rfl⟩
  · intro tavily_api_key query http
    unfold web_search
    cases h : web_search_try http <;> simp [h]
  · intro company searchHttp hist
    obtain ⟨v, hv⟩ := get_ticker_result_ok company searchHttp
    unfold get_stock_price
    dsimp only
    rw [hv]
    dsimp only
    repeat' split
    all_goals exact ⟨_, rfl⟩

/-- C2 counterexample: the claim fails for `convert_currency`, whose
`urllib.request.urlopen(url)` call passes no timeout argument: at the
concrete input (100, "USD", "EUR") with a hanging upstream, the single
HTTP request it issues carries no deadline at all, hence no deadline on
the order of 5-10 seconds. -/
theorem convert_currency_no_deadline_cx :
    ¬ (∀ r ∈ (convert_currency 100 "USD" "EUR" (Except.error "timed out")).requests,
        ∃ t, r.timeoutSecs = some t ∧ 5 ≤ t ∧ t ≤ 10) := by
  intro h
  obtain ⟨t, ht, _⟩ :=
    h { url := convert_currency_url "USD", timeoutSecs := none } (by exact List.mem_singleton.mpr rfl)
  exact Option.noConfusion ht

/-- C2 amended: the `requests`-library calls do carry explicit deadlines —
every request of `get_weather` is issued with a 5-second timeout and every
request of `web_search` and of `get_ticker` with a 10-second timeout — but
the request `convert_currency` issues through `urllib.request.urlopen`
carries no deadline. -/
theorem tool_request_timeouts :
    (∀ (city : JVal) (kwargs : List (String × JVal)) (http : String → Except String String),
       ((get_weather city kwargs http).requests.all
         (fun r => r.timeoutSecs == some 5)) = true) ∧
    (∀ (tavily_api_key : Option String) (query : String) (http : Except String JVal),
       ((web_search tavily_api_key query http).requests.all
         (fun r => r.timeoutSecs == some 10)) = true) ∧
    (∀ (company : String) (http : Except String JVal),
       ((get_ticker company http).requests.all
         (fun r => r.timeoutSecs == some 10)) = true) ∧
    (∀ (amount : ℚ) (from_currency to_currency : String) (fetch : Except String JVal),
       ((convert_currency amount from_currency to_currency fetch).requests.all
         (fun r => r.timeoutSecs == none)) = true) := by
  refine ⟨?_, ?_, ?_, ?_⟩
  · intro city kwargs http
    unfold get_weather
    dsimp only
    repeat' split
    all_goals rfl
  · intro tavily_api_key query http
    unfold web_search
    cases h : web_search_try http <;> rfl
  · intro company http
    unfold get_ticker
    cases h : get_ticker_try http <;> rfl
  · intro amount from_currency to_currency fetch
    unfold convert_currency
    cases h : convert_currency_try amount from_currency to_currency fetch <;> rfl

/-- C3: with the search credential `TAVILY_API_KEY` absent from the
environment, module startup succeeds (binding the key to `None`), and
invoking `web_search` when the upstream request then fails with a
non-success response yields an error string that starts with (hence
contains) the word "Error", instead of raising a fault. -/
theorem web_search_missing_key_degrades :
    (∀ (env : String → Option String), env "TAVILY_API_KEY" = none →
       module_init env = Except.ok none) ∧
    (∀ (query msg : String),
       ∃ rest, (web_search (os_getenv (fun _ => none) "TAVILY_API_KEY") query
           (Except.error msg)).result = Except.ok ("Error" ++ rest)) := by
  constructor
  · intro env henv
    simp [module_init, os_getenv, henv]
  · intro query msg
    refine ⟨" during web search: " ++ msg, ?_⟩
    show Except.ok ("Error during web search: " ++ msg) = _
    rw [← String.append_assoc]
    rfl

/-- C3 witness: the concrete empty environment, query "capital of France"
and upstream message "401 Client Error". -/
theorem web_search_missing_key_degrades_witness :
    module_init (fun _ => none) = Except.ok none ∧
    ∃ rest, (web_search (os_getenv (fun _ => none) "TAVILY_API_KEY") "capital of France"
        (Except.error "401 Client Error")).result = Except.ok ("Error" ++ rest) :=
  ⟨web_search_missing_key_degrades.1 (fun _ => none) rfl,
   web_search_missing_key_degrades.2 "capital of France" "401 Client Error"⟩

/-- C4: registering a second tool under an already-registered name fails
with a DuplicateToolError (a ConfigurationError), and the registry after
the failed registration still contains exactly the descriptor of the first
registration, unchanged. -/
theorem register_duplicate_rejected (d1 d2 : ToolDescriptor)
    (hname : d2.name = d1.name) :
    registerTool [] d1 = ([d1], none) ∧
    registerTool [d1] d2 = ([d1], some ("DuplicateToolError: " ++ d2.name)) := by
  constructor
  · rfl
  · simp [registerTool, hname]

/-- C4 witness: two concrete descriptors sharing the name "get_weather". -/
theorem register_duplicate_rejected_witness :
    registerTool [] ⟨"get_weather", "first", []⟩ = ([⟨"get_weather", "first", []⟩], none) ∧
    registerTool [⟨"get_weather", "first", []⟩] ⟨"get_weather", "second", []⟩ =
      ([⟨"get_weather", "first", []⟩], some ("DuplicateToolError: " ++ "get_weather")) :=
  register_duplicate_rejected ⟨"get_weather", "first", []⟩ ⟨"get_weather", "second", []⟩ rfl

/-- C5: `get_weather` honors `location` as an alias of `city`: when the
`city` parameter is `None` but the keyword arguments carry a non-empty
string under `location`, the whole run (result string, including any
error echo, and requests issued) is the same as if that value had been
passed as `city`. -/
theorem get_weather_location_alias (kwargs : List (String × JVal)) (loc : String)
    (http : String → Except String String)
    (hloc : jLookup kwargs "location" = some (JVal.str loc)) (_hne : loc ≠ "") :
    get_weather JVal.null kwargs http = get_weather (JVal.str loc) kwargs http := by
  unfold get_weather
  simp [kwGet, hloc, isNone]

/-- C5 witness: kwargs `{location: "Paris"}` with a fixed upstream. -/
theorem get_weather_location_alias_witness :
    get_weather JVal.null [("location", JVal.str "Paris")] (fun _ => Except.ok "sunny") =
      get_weather (JVal.str "Paris") [("location", JVal.str "Paris")]
        (fun _ => Except.ok "sunny") :=
  get_weather_location_alias [("location", JVal.str "Paris")] "Paris"
    (fun _ => Except.ok "sunny") rfl (by decide)

/-- C6: `convert_currency` looks up rates by the uppercased source code
(the fetched URL embeds `from_currency.upper()`) and returns a
human-readable string in every case: with a "rates" table holding a
usable (nonzero) rate for the uppercased target code it returns
`"{amount} {FROM} = {amount*rate :.2f} {TO}"` with both codes uppercased;
without a "rates" key it returns the could-not-fetch error; with no rate
found for the target it returns `"Error: No rate found for
{to_currency}"`. -/
theorem convert_currency_cases :
    (∀ (amount : ℚ) (from_currency to_currency : String)
       (kvs table : List (String × JVal)) (r : ℚ),
       jLookup kvs "rates" = some (JVal.obj table) →
       jLookup table (pyUpper to_currency) = some (JVal.num r) → r ≠ 0 →
       (convert_currency amount from_currency to_currency
           (Except.ok (JVal.obj kvs))).result =
         Except.ok (formatAmt amount ++ " " ++ pyUpper from_currency ++ " = " ++
           format2 (amount * r) ++ " " ++ pyUpper to_currency)) ∧
    (∀ (amount : ℚ) (from_currency to_currency : String) (kvs : List (String × JVal)),
       jLookup kvs "rates" = none →
       (convert_currency amount from_currency to_currency
           (Except.ok (JVal.obj kvs))).result =
         Except.ok "Error: Could not fetch exchange rates") ∧
    (∀ (amount : ℚ) (from_currency to_currency : String)
       (kvs table : List (String × JVal)),
       jLookup kvs "rates" = some (JVal.obj table) →
       jLookup table (pyUpper to_currency) = none →
       (convert_currency amount from_currency to_currency
           (Except.ok (JVal.obj kvs))).result =
         Except.ok ("Error: No rate found for " ++ to_currency)) := by
  refine ⟨?_, ?_, ?_⟩
  · intro amount from_currency to_currency kvs table r h1 h2 h3
    unfold convert_currency convert_currency_try
    simp [pyIn, jIndex, dictGet, truthy, asNum, pure, Except.pure, h1, h2, h3]
  · intro amount from_currency to_currency kvs h1
    unfold convert_currency convert_currency_try
    simp [pyIn, pure, Except.pure, h1]
  · intro amount from_currency to_currency kvs table h1 h2
    unfold convert_currency convert_currency_try
    simp [pyIn, jIndex, dictGet, truthy, pure, Except.pure, h1, h2]

/-- C6 witness: converting 100 usd to eur against a rates table
`{EUR: 0.85}`, plus the two error branches at concrete inputs. -/
theorem convert_currency_cases_witness :
    (convert_currency 100 "usd" "eur"
        (Except.ok (JVal.obj [("rates", JVal.obj [("EUR", JVal.num (17 / 20))])]))).result =
      Except.ok (formatAmt 100 ++ " " ++ pyUpper "usd" ++ " = " ++
        format2 (100 * (17 / 20)) ++ " " ++ pyUpper "eur") ∧
    (convert_currency 100 "usd" "eur" (Except.ok (JVal.obj [("result", JVal.str "x")]))).result =
      Except.ok "Error: Could not fetch exchange rates" ∧
    (convert_currency 100 "usd" "xyz"
        (Except.ok (JVal.obj [("rates", JVal.obj [("EUR", JVal.num (17 / 20))])]))).result =
      Except.ok ("Error: No rate found for " ++ "xyz") :=
  ⟨convert_currency_cases.1 100 "usd" "eur" _ _ (17 / 20) rfl rfl (by norm_num),
   convert_currency_cases.2.1 100 "usd" "eur" _ rfl,
   convert_currency_cases.2.2 100 "usd" "xyz" _ _ rfl rfl⟩

/-- C8: a zero exchange rate collapses into the missing-rate case: when
the fetched rates table maps the uppercased target code to 0, or does not
contain it at all, the result is `"Error: No rate found for
{to_currency}"` with the target code echoed in its original, not
uppercased, form. -/
theorem convert_currency_zero_rate (amount : ℚ) (from_currency to_currency : String)
    (kvs table : List (String × JVal))
    (h1 : jLookup kvs "rates" = some (JVal.obj table))
    (h2 : jLookup table (pyUpper to_currency) = some (JVal.num 0) ∨
          jLookup table (pyUpper to_currency) = none) :
    (convert_currency amount from_currency to_currency
        (Except.ok (JVal.obj kvs))).result =
      Except.ok ("Error: No rate found for " ++ to_currency) := by
  unfold convert_currency convert_currency_try
  rcases h2 with h2 | h2 <;> simp [pyIn, jIndex, dictGet, truthy, pure, Except.pure, h1, h2]

/-- C8 witness: a mixed-case target code "eUr" whose uppercased form maps
to rate 0; the echo keeps the original casing. -/
theorem convert_currency_zero_rate_witness :
    (convert_currency 100 "usd" "eUr"
        (Except.ok (JVal.obj [("rates", JVal.obj [("EUR", JVal.num 0)])]))).result =
      Except.ok ("Error: No rate found for " ++ "eUr") :=
  convert_currency_zero_rate 100 "usd" "eUr" _ _ rfl (Or.inl rfl)

/-- C9: `get_weather` rejects an empty city as if none were given: when
both the `city` parameter and the `location` keyword are absent, `None`
or the empty string, the result is exactly "Error: No city provided." and
no HTTP request is made. -/
theorem get_weather_empty_city (city : JVal) (kwargs : List (String × JVal))
    (http : String → Except String String)
    (hcity : city = JVal.null ∨ city = JVal.str "")
    (hloc : kwGet kwargs "location" = JVal.null ∨ kwGet kwargs "location" = JVal.str "") :
    (get_weather city kwargs http).result = Except.ok "Error: No city provided." ∧
    (get_weather city kwargs http).requests = [] := by
  unfold get_weather
  rcases hcity with h | h <;> rcases hloc with h' | h' <;>
    simp [h, h', isNone, truthy, string_empty_isEmpty]

/-- C9 witness: `city` the empty string, kwargs carrying `location: None`. -/
theorem get_weather_empty_city_witness :
    (get_weather (JVal.str "") [("location", JVal.null)]
        (fun _ => Except.ok "sunny")).result = Except.ok "Error: No city provided." ∧
    (get_weather (JVal.str "") [("location", JVal.null)]
        (fun _ => Except.ok "sunny")).requests = [] :=
  get_weather_empty_city (JVal.str "") [("location", JVal.null)]
    (fun _ => Except.ok "sunny") (Or.inr rfl) (Or.inl rfl)

/-- C7: `get_stock_price` resolves in two phases.  Phase one resolves a
ticker symbol via `get_ticker`; when the resolved value is falsy (no
symbol) the tool answers `"Could not find a ticker symbol for
{company}."` and fetches no price history at all.  Otherwise phase two
fetches one day of history for the resolved symbol and answers the last
closing price formatted to two decimals, a could-not-retrieve string when
the history is empty, or an error string when fetching raises. -/
theorem get_stock_price_two_phase :
    (∀ (company : String) (searchHttp : Except String JVal)
       (hist : String → Except String (List ℚ)) (v : JVal),
       (get_ticker company searchHttp).result = Except.ok v → truthy v = false →
       (get_stock_price company searchHttp hist).result =
         Except.ok ("Could not find a ticker symbol for " ++ company ++ ".") ∧
       (get_stock_price company searchHttp hist).historyFetches = []) ∧
    (∀ (company : String) (searchHttp : Except String JVal)
       (hist : String → Except String (List ℚ)) (v : JVal) (e : String),
       (get_ticker company searchHttp).result = Except.ok v → truthy v = true →
       hist (pyStr v) = Except.error e →
       (get_stock_price company searchHttp hist).result =
         Except.ok ("Error retrieving stock price for " ++ company ++ ": " ++ e)) ∧
    (∀ (company : String) (searchHttp : Except String JVal)
       (hist : String → Except String (List ℚ)) (v : JVal),
       (get_ticker company searchHttp).result = Except.ok v → truthy v = true →
       hist (pyStr v) = Except.ok [] →
       (get_stock_price company searchHttp hist).result =
         Except.ok ("Could not retrieve data for " ++ company ++ ".")) ∧
    (∀ (company : String) (searchHttp : Except String JVal)
       (hist : String → Except String (List ℚ)) (v : JVal) (closes : List ℚ),
       (get_ticker company searchHttp).result = Except.ok v → truthy v = true →
       hist (pyStr v) = Except.ok closes → closes ≠ [] →
       (get_stock_price company searchHttp hist).result =
         Except.ok ("The current stock price of " ++ company ++ " (" ++ pyStr v ++
           ") is $" ++ format2 (closes.getLastD 0)) ∧
       (get_stock_price company searchHttp hist).historyFetches = [pyStr v]) := by
  refine ⟨?_, ?_, ?_, ?_⟩
  · intro company searchHttp hist v hv htr
    unfold get_stock_price
    dsimp only
    rw [hv]
    simp [htr]
  · intro company searchHttp hist v e hv htr hh
    unfold get_stock_price
    dsimp only
    rw [hv]
    simp [htr, hh]
  · intro company searchHttp hist v hv htr hh
    unfold get_stock_price
    dsimp only
    rw [hv]
    simp [htr, hh]
  · intro company searchHttp hist v closes hv htr hh hne
    unfold get_stock_price
    dsimp only
    rw [hv]
    simp [htr, hh, List.isEmpty_iff, hne]

/-- C7 witness: a finance search answering `{quotes: [{symbol: "AAPL"}]}`
and a one-day history ending at closing price 255.37 resolve to the
formatted price; an empty quotes list short-circuits with no history
fetch. -/
theorem get_stock_price_two_phase_witness :
    ((get_stock_price "Apple" (Except.ok (JVal.obj [("quotes", JVal.arr [JVal.obj [("symbol", JVal.str "AAPL")]])]))
        (fun _ => Except.ok [251, 25537 / 100])).result =
      Except.ok ("The current stock price of " ++ "Apple" ++ " (" ++ pyStr (JVal.str "AAPL") ++
        ") is $" ++ format2 ([(251 : ℚ), 25537 / 100].getLastD 0)) ∧
     (get_stock_price "Apple" (Except.ok (JVal.obj [("quotes", JVal.arr [JVal.obj [("symbol", JVal.str "AAPL")]])]))
        (fun _ => Except.ok [251, 25537 / 100])).historyFetches = [pyStr (JVal.str "AAPL")]) ∧
    ((get_stock_price "Apple" (Except.ok (JVal.obj [("quotes", JVal.arr [])]))
        (fun _ => Except.ok [251])).result =
      Except.ok ("Could not find a ticker symbol for " ++ "Apple" ++ ".") ∧
     (get_stock_price "Apple" (Except.ok (JVal.obj [("quotes", JVal.arr [])]))
        (fun _ => Except.ok [251])).historyFetches = []) :=
  ⟨get_stock_price_two_phase.2.2.2 "Apple" _ _ (JVal.str "AAPL") [251, 25537 / 100]
      rfl rfl rfl (by decide),
   get_stock_price_two_phase.1 "Apple" _ _ JVal.null rfl rfl⟩

/-- C10: `get_ticker` never raises: its result is always a returned value;
on any exception of the request or parsing it returns `None`; on a parsed
response it returns the `"symbol"` field of the first element of the
`"quotes"` list, or `None` when the quotes list is empty or absent or the
field is absent. -/
theorem get_ticker_cases :
    (∀ (company : String) (http : Except String JVal),
       ∃ v, (get_ticker company http).result = Except.ok v) ∧
    (∀ (company e : String),
       (get_ticker company (Except.error e)).result = Except.ok JVal.null) ∧
    (∀ (company : String) (kvs : List (String × JVal)),
       jLookup kvs "quotes" = none ∨ jLookup kvs "quotes" = some (JVal.arr []) →
       (get_ticker company (Except.ok (JVal.obj kvs))).result = Except.ok JVal.null) ∧
    (∀ (company : String) (kvs qkvs : List (String × JVal)) (rest : List JVal) (v : JVal),
       jLookup kvs "quotes" = some (JVal.arr (JVal.obj qkvs :: rest)) →
       jLookup qkvs "symbol" = some v →
       (get_ticker company (Except.ok (JVal.obj kvs))).result = Except.ok v) ∧
    (∀ (company : String) (kvs qkvs : List (String × JVal)) (rest : List JVal),
       jLookup kvs "quotes" = some (JVal.arr (JVal.obj qkvs :: rest)) →
       jLookup qkvs "symbol" = none →
       (get_ticker company (Except.ok (JVal.obj kvs))).result = Except.ok JVal.null) := by
  refine ⟨get_ticker_result_ok, ?_, ?_, ?_, ?_⟩
  · intro company e
    rfl
  · intro company kvs h
    unfold get_ticker get_ticker_try
    rcases h with h | h <;> simp [dictGetD, truthy, pure, Except.pure, h]
  · intro company kvs qkvs rest v h1 h2
    unfold get_ticker get_ticker_try
    simp [dictGetD, truthy, dictGet, pure, Except.pure, h1, h2]
  · intro company kvs qkvs rest h1 h2
    unfold get_ticker get_ticker_try
    simp [dictGetD, truthy, dictGet, pure, Except.pure, h1, h2]

/-- C10 witness: a response `{quotes: [{symbol: "GOOG"}]}` yields the
symbol, `{quotes: []}` and a raised exception yield `None`. -/
theorem get_ticker_cases_witness :
    (get_ticker "Google" (Except.ok (JVal.obj [("quotes", JVal.arr [JVal.obj [("symbol", JVal.str "GOOG")]])]))).result =
      Except.ok (JVal.str "GOOG") ∧
    (get_ticker "Google" (Except.ok (JVal.obj [("quotes", JVal.arr [])]))).result =
      Except.ok JVal.null ∧
    (get_ticker "Google" (Except.error "ConnectionError")).result = Except.ok JVal.null :=
  ⟨get_ticker_cases.2.2.2.1 "Google" _ _ [] (JVal.str "GOOG") rfl rfl,
   get_ticker_cases.2.2.1 "Google" _ (Or.inr rfl),
   get_ticker_cases.2.1 "Google" "ConnectionError"⟩
